import Mathlib

/-!
Shallow embedding of snuba/consumers/consumer_builder.py: the ConsumerBuilder
class that merges operator-supplied Kafka parameters with dataset-declared
defaults, resolves physical topic names under an optional slice id, selects a
commit retry policy, and assembles the streaming strategy factory and the
stream processor. Collaborators that live outside this file of the repository
(topic specs, configuration builders, the runtime config store, slicing
validation) are modelled from the specification and marked as such.
-/

set_option autoImplicit false

namespace ConsumerBuilderSpec

/-- A value stored in a Kafka client configuration map (a Python dict value):
a string, an integer, or a reference to an optional statistics callback. -/
inductive ConfigValue where
  | str : String → ConfigValue
  | int : Int → ConfigValue
  | callbackRef : Option Unit → ConfigValue
  deriving DecidableEq, Repr

/-- First-match lookup in an association-list configuration map; mirrors a
Python dict in which earlier entries of the list take precedence. -/
def lookupConfig (cfg : List (String × ConfigValue)) (k : String) : Option ConfigValue :=
  match cfg with
  | [] => none
  | (k2, v) :: rest => if k2 = k then some v else lookupConfig rest k

/-- A dataset-declared topic specification: the logical topic name together
with the physical topic name as a function of an optional slice id
(get_physical_topic_name). The physical-name mapping itself lives outside the
embedded file, so it is kept abstract as a function field. -/
structure TopicSpec where
  logicalTopicName : String
  physicalTopicName : Option Nat → String

/-- The stream loader of a writable storage: the default (raw) topic spec is
always present, the replacement and commit-log topic specs are optional, and
the processing contract is referenced by abstract handles. -/
structure StreamLoader where
  defaultTopicSpec : TopicSpec
  replacementTopicSpec : Option TopicSpec
  commitLogTopicSpec : Option TopicSpec
  processorId : Nat
  preFilterId : Option Nat
  deadLetterQueuePolicyCreatorId : Option Nat

/-- A writable storage as returned by get_writable_storage: its storage set
key, its stream loader, and a handle for its table writer. -/
structure WritableStorage where
  storageSetKey : String
  streamLoader : StreamLoader
  tableWriterId : Nat

/-- KafkaParameters from consumer_builder.py lines 36-46. -/
structure KafkaParameters where
  raw_topic : Option String
  replacements_topic : Option String
  bootstrap_servers : Option (List String)
  group_id : String
  commit_log_topic : Option String
  auto_offset_reset : String
  strict_offset_reset : Option Bool
  queued_max_messages_kbytes : Int
  queued_min_messages : Int

/-- ProcessingParameters from consumer_builder.py lines 49-53. -/
structure ProcessingParameters where
  processes : Option Nat
  input_block_size : Option Nat
  output_block_size : Option Nat

/-- The error codes a confluent_kafka KafkaError can carry; the three codes
named in the default commit retry predicate are distinguished constructors
and every other code is collapsed into otherCode. -/
inductive KafkaErrorCode where
  | requestTimedOut
  | notCoordinator
  | waitCoord
  | otherCode (n : Int)
  deriving DecidableEq, Repr

/-- The first positional argument of a Python exception as inspected by the
commit retry predicate: either a KafkaError carrying a code (so that the
code() call succeeds) or some other value with no code() method. -/
inductive ExcArg where
  | kafkaError (code : KafkaErrorCode)
  | nonErrorValue
  deriving DecidableEq, Repr

/-- An exception handed to the commit retry predicate: a KafkaException with
its (possibly empty) argument tuple, or any exception of another class. -/
inductive CommitException where
  | kafkaException (args : List ExcArg)
  | otherException
  deriving DecidableEq, Repr

/-- A Python runtime fault that the body of the predicate itself can raise
while inspecting the exception: indexing an empty argument tuple, or calling
code() on a value that has no such method. -/
inductive PyFault where
  | indexError
  | attributeError
  deriving DecidableEq, Repr

/-- The default commit retry predicate, the lambda at consumer_builder.py
lines 161-167: isinstance of KafkaException, and the code of args at index 0
is one of REQUEST_TIMED_OUT, NOT_COORDINATOR, WAIT_COORD. Python
short-circuit semantics: a non-KafkaException returns false without touching
args; a KafkaException first indexes args (IndexError when empty) and then
calls code() (AttributeError when the value has no code method). -/
def defaultRetryPredicate (e : CommitException) : Except PyFault Bool :=
  match e with
  | .otherException => .ok false
  | .kafkaException args =>
    match args with
    | [] => .error .indexError
    | a :: _ =>
      match a with
      | .nonErrorValue => .error .attributeError
      | .kafkaError c =>
        .ok (c == .requestTimedOut || c == .notCoordinator || c == .waitCoord)

/-- A commit retry policy as stored by the builder: either the arroyo
BasicRetryPolicy with its attempt bound, backoff and suppression test, or an
arbitrary caller-supplied policy identified by a handle. -/
inductive RetryPolicy where
  | basic (attempts : Nat) (backoff : Nat) (test : CommitException → Except PyFault Bool)
  | external (id : Nat)

/-- A producer client handle, carrying the broker configuration it was
constructed from (consumer_builder.py line 142). -/
structure Producer where
  config : List (String × ConfigValue)

/-- ConfigurationError raised by slicing validation. -/
inductive ConfigurationError where
  | invalidSliceForStorageSet (storageSet : String) (sliceId : Option Nat)
  deriving DecidableEq, Repr

/-- The build-time environment standing for collaborators outside the
embedded file: the slice validity relation, the dynamic runtime configuration
store, and the broker configuration builders. -/
structure BuildEnv where
  isValidSlice : String → Option Nat → Bool
  runtimeConfig : String → Option Int
  defaultKafkaConfig : String → Option Nat → Option (List String) → List (String × ConfigValue)
  producerBaseConfig : String → Option Nat → Option (List String) → List (String × ConfigValue)

/-- Modelled from the spec: validate_passed_slice (snuba.datasets.slicing, not
under src/) checks that the slice id, if present, is valid for the storage
set and raises ConfigurationError otherwise; the validity relation itself is
the abstract isValidSlice field of the environment. -/
def validate_passed_slice (env : BuildEnv) (storageSetKey : String)
    (sliceId : Option Nat) : Except ConfigurationError Unit :=
  if env.isValidSlice storageSetKey sliceId then .ok ()
  else .error (.invalidSliceForStorageSet storageSetKey sliceId)

/-- Modelled from the spec: build_kafka_producer_configuration
(snuba.utils.streams.configuration_builder, not under src/) merges broker
defaults and caller-supplied parameters for the given topic, slice and
bootstrap servers, then applies override_params last so that overrides win;
env.producerBaseConfig stands for the merged map before overrides, and
prepending the overrides to a first-match association list makes them win. -/
def build_kafka_producer_configuration (env : BuildEnv) (topic : String)
    (sliceId : Option Nat) (bootstrapServers : Option (List String))
    (overrideParams : List (String × ConfigValue)) : List (String × ConfigValue) :=
  overrideParams ++ env.producerBaseConfig topic sliceId bootstrapServers

/-- Modelled from the spec: get_config (snuba.state, not under src/) reads a
dynamic runtime setting from the process-wide store and returns the stored
value, or the given default when the key is unset. -/
def get_config (env : BuildEnv) (key : String) (deflt : Int) : Int :=
  (env.runtimeConfig key).getD deflt

/-- The override parameters the builder passes to the producer configuration
builder (consumer_builder.py lines 98-101). -/
def producerOverrideParams : List (String × ConfigValue) :=
  [("partitioner", .str "consistent"), ("message.max.bytes", .int 50000000)]

/-- Raw topic resolution (consumer_builder.py lines 106-111): the operator
override when present, else the physical name of the dataset default topic
spec under the given slice id. -/
def resolveRawTopic (override : Option String) (sl : StreamLoader)
    (sliceId : Option Nat) : String :=
  match override with
  | some t => t
  | none => sl.defaultTopicSpec.physicalTopicName sliceId

/-- Replacements topic resolution (consumer_builder.py lines 113-123): the
override when present, else the physical name of the declared replacement
topic spec under the slice id when the spec exists, else absent. -/
def resolveReplacementsTopic (override : Option String) (sl : StreamLoader)
    (sliceId : Option Nat) : Option String :=
  match override with
  | some t => some t
  | none =>
    match sl.replacementTopicSpec with
    | some spec => some (spec.physicalTopicName sliceId)
    | none => none

/-- Commit-log topic resolution (consumer_builder.py lines 125-136): the same
override-else-derive-else-absent rule, independently. -/
def resolveCommitLogTopic (override : Option String) (sl : StreamLoader)
    (sliceId : Option Nat) : Option String :=
  match override with
  | some t => some t
  | none =>
    match sl.commitLogTopicSpec with
    | some spec => some (spec.physicalTopicName sliceId)
    | none => none

/-- An observable build-time effect of the constructor, used to state that
slice validation happens before any topic resolution and before any broker
client construction. -/
inductive InitEvent where
  | brokerConfigBuilt
  | producerConfigBuilt
  | rawTopicResolved
  | replacementsTopicResolved
  | commitLogTopicResolved
  | producerConstructed
  deriving DecidableEq, Repr

/-- The fields the constructor stores on self (consumer_builder.py lines
77-171). The constructor slice id is deliberately not a field: the source
never stores it. -/
structure ConsumerBuilderState where
  storage : WritableStorage
  bootstrap_servers : Option (List String)
  consumer_group : String
  broker_config : List (String × ConfigValue)
  producer_broker_config : List (String × ConfigValue)
  raw_topic : String
  replacements_topic : Option String
  commit_log_topic : Option String
  stats_callback : Option Unit
  producer : Producer
  metricsId : Nat
  max_batch_size : Nat
  max_batch_time_ms : Nat
  group_id : String
  auto_offset_reset : String
  strict_offset_reset : Option Bool
  queued_max_messages_kbytes : Int
  queued_min_messages : Int
  processes : Option Nat
  input_block_size : Option Nat
  output_block_size : Option Nat
  profile_path : Option String
  commit_retry_policy : RetryPolicy
  validate_schema : Bool

/-- The state the constructor produces when slice validation passes,
assignment by assignment from consumer_builder.py lines 77-171. -/
def initState (env : BuildEnv) (storage : WritableStorage)
    (kafka_params : KafkaParameters) (processing_params : ProcessingParameters)
    (max_batch_size : Nat) (max_batch_time_ms : Nat) (metricsId : Nat)
    (slice_id : Option Nat)
    (stats_callback : Option Unit := none)
    (commit_retry_policy : Option RetryPolicy := none)
    (validate_schema : Bool := false)
    (profile_path : Option String := none) : ConsumerBuilderState :=
  let topic := storage.streamLoader.defaultTopicSpec.logicalTopicName
  { storage := storage
    bootstrap_servers := kafka_params.bootstrap_servers
    consumer_group := kafka_params.group_id
    broker_config := env.defaultKafkaConfig topic slice_id kafka_params.bootstrap_servers
    producer_broker_config :=
      build_kafka_producer_configuration env topic slice_id
        kafka_params.bootstrap_servers producerOverrideParams
    raw_topic := resolveRawTopic kafka_params.raw_topic storage.streamLoader slice_id
    replacements_topic :=
      resolveReplacementsTopic kafka_params.replacements_topic storage.streamLoader slice_id
    commit_log_topic :=
      resolveCommitLogTopic kafka_params.commit_log_topic storage.streamLoader slice_id
    stats_callback := stats_callback
    producer :=
      Producer.mk
        (build_kafka_producer_configuration env topic slice_id
          kafka_params.bootstrap_servers producerOverrideParams)
    metricsId := metricsId
    max_batch_size := max_batch_size
    max_batch_time_ms := max_batch_time_ms
    group_id := kafka_params.group_id
    auto_offset_reset := kafka_params.auto_offset_reset
    strict_offset_reset := kafka_params.strict_offset_reset
    queued_max_messages_kbytes := kafka_params.queued_max_messages_kbytes
    queued_min_messages := kafka_params.queued_min_messages
    processes := processing_params.processes
    input_block_size := processing_params.input_block_size
    output_block_size := processing_params.output_block_size
    profile_path := profile_path
    commit_retry_policy :=
      commit_retry_policy.getD (.basic 3 1 defaultRetryPredicate)
    validate_schema := validate_schema }

/-- The events the constructor performs after validation passes, in source
order: default broker config, producer broker config, the three topic
resolutions, producer construction. -/
def successEvents : List InitEvent :=
  [.brokerConfigBuilt, .producerConfigBuilt, .rawTopicResolved,
   .replacementsTopicResolved, .commitLogTopicResolved, .producerConstructed]

/-- The constructor (consumer_builder.py lines 63-171): slice validation is
the only fallible step and precedes every other effect, so the result is the
event trace paired with either the ConfigurationError (empty trace: nothing
was resolved or constructed) or the completed state. -/
def consumerBuilderInit (env : BuildEnv) (storage : WritableStorage)
    (kafka_params : KafkaParameters) (processing_params : ProcessingParameters)
    (max_batch_size : Nat) (max_batch_time_ms : Nat) (metricsId : Nat)
    (slice_id : Option Nat)
    (stats_callback : Option Unit := none)
    (commit_retry_policy : Option RetryPolicy := none)
    (validate_schema : Bool := false)
    (profile_path : Option String := none) :
    List InitEvent × Except ConfigurationError ConsumerBuilderState :=
  match validate_passed_slice env storage.storageSetKey slice_id with
  | .error e => ([], .error e)
  | .ok _ =>
    (successEvents,
     .ok (initState env storage kafka_params processing_params max_batch_size
          max_batch_time_ms metricsId slice_id stats_callback
          commit_retry_policy validate_schema profile_path))

/-- Modelled from the spec: build_kafka_consumer_configuration
(snuba.utils.streams.configuration_builder, not under src/) produces the
consumer-side broker configuration from the logical topic, bootstrap servers,
group id, slice id, offset-reset policy and queue limits; the record captures
exactly the arguments the builder passes (consumer_builder.py lines 187-196). -/
structure KafkaConsumerBaseConfig where
  logicalTopic : String
  bootstrapServers : Option (List String)
  groupId : String
  sliceId : Option Nat
  autoOffsetReset : String
  strictOffsetReset : Option Bool
  queuedMaxMessagesKbytes : Int
  queuedMinMessages : Int

/-- The consumer configuration dict after the optional statistics update
(consumer_builder.py lines 198-209): the base map plus the entries added by
configuration.update. -/
structure ConsumerConfiguration where
  base : KafkaConsumerBaseConfig
  extra : List (String × ConfigValue)

/-- The statistics collection frequency (consumer_builder.py lines 198-201):
the per-group runtime setting, falling back to the global setting, falling
back to 0. -/
def statsCollectionFrequencyMs (env : BuildEnv) (groupId : String) : Int :=
  get_config env ("stats_collection_freq_ms_" ++ groupId)
    (get_config env "stats_collection_freq_ms" 0)

/-- The consumer configuration assembled by ConsumerBuilder.__build_consumer
(consumer_builder.py lines 187-209): the base configuration, updated with the
statistics interval and the callback hook exactly when the frequency is
strictly positive. -/
def buildConsumerConfiguration (env : BuildEnv) (st : ConsumerBuilderState)
    (slice_id : Option Nat) : ConsumerConfiguration :=
  let base : KafkaConsumerBaseConfig :=
    { logicalTopic := st.storage.streamLoader.defaultTopicSpec.logicalTopicName
      bootstrapServers := st.bootstrap_servers
      groupId := st.group_id
      sliceId := slice_id
      autoOffsetReset := st.auto_offset_reset
      strictOffsetReset := st.strict_offset_reset
      queuedMaxMessagesKbytes := st.queued_max_messages_kbytes
      queuedMinMessages := st.queued_min_messages }
  let freq := statsCollectionFrequencyMs env st.group_id
  if 0 < freq then
    { base := base
      extra := [("statistics.interval.ms", .int freq),
                ("stats_cb", .callbackRef st.stats_callback)] }
  else
    { base := base, extra := [] }

/-- CommitLogConfig (snuba.consumers.consumer): producer handle, commit-log
topic, consumer group id. -/
structure CommitLogConfig where
  producer : Producer
  topic : String
  groupId : String

/-- The per-message transform of the pipeline: process_message with its four
build-time-fixed arguments bound (consumer_builder.py lines 240-246). -/
structure BoundMessageTransform where
  processorId : Nat
  consumerGroup : String
  logicalTopicName : String
  validateSchema : Bool

/-- The batch collector binding produced by build_batch_writer
(consumer_builder.py lines 247-256). -/
structure BatchWriterDesc where
  tableWriterId : Nat
  metricsId : Nat
  replacementsProducer : Option Producer
  replacementsTopic : Option String
  sliceId : Option Nat
  commitLogConfig : Option CommitLogConfig

/-- The KafkaConsumerStrategyFactory arguments (consumer_builder.py lines
236-264). -/
structure KafkaConsumerStrategyFactoryDesc where
  prefilterId : Option Nat
  processMessage : BoundMessageTransform
  collector : BatchWriterDesc
  maxBatchSize : Nat
  maxBatchTime : ℚ
  processes : Option Nat
  inputBlockSize : Option Nat
  outputBlockSize : Option Nat
  deadLetterQueuePolicyCreatorId : Option Nat

/-- The assembled strategy factory, possibly wrapped by the profiler
(consumer_builder.py lines 266-272). -/
inductive StrategyFactoryDesc where
  | base (f : KafkaConsumerStrategyFactoryDesc)
  | profiled (f : KafkaConsumerStrategyFactoryDesc) (profilePath : String)

/-- The underlying factory description, profiled or not. -/
def StrategyFactoryDesc.inner : StrategyFactoryDesc → KafkaConsumerStrategyFactoryDesc
  | .base f => f
  | .profiled f _ => f

/-- ConsumerBuilder.__build_streaming_strategy_factory (consumer_builder.py
lines 218-272): binds the commit-log config exactly when a commit-log topic
is present, the replacements producer exactly when a replacements topic is
present, the four-argument message transform, the batching thresholds with
the millisecond-to-second conversion, and the optional profiling wrapper. -/
def buildStreamingStrategyFactory (st : ConsumerBuilderState)
    (slice_id : Option Nat := none) : StrategyFactoryDesc :=
  let sl := st.storage.streamLoader
  let logicalTopic := sl.defaultTopicSpec.logicalTopicName
  let commitLogConfig : Option CommitLogConfig :=
    match st.commit_log_topic with
    | some t => some { producer := st.producer, topic := t, groupId := st.group_id }
    | none => none
  let factory : KafkaConsumerStrategyFactoryDesc :=
    { prefilterId := sl.preFilterId
      processMessage :=
        { processorId := sl.processorId
          consumerGroup := st.consumer_group
          logicalTopicName := logicalTopic
          validateSchema := st.validate_schema }
      collector :=
        { tableWriterId := st.storage.tableWriterId
          metricsId := st.metricsId
          replacementsProducer :=
            if st.replacements_topic.isSome then some st.producer else none
          replacementsTopic := st.replacements_topic
          sliceId := slice_id
          commitLogConfig := commitLogConfig }
      maxBatchSize := st.max_batch_size
      maxBatchTime := (st.max_batch_time_ms : ℚ) / 1000
      processes := st.processes
      inputBlockSize := st.input_block_size
      outputBlockSize := st.output_block_size
      deadLetterQueuePolicyCreatorId := sl.deadLetterQueuePolicyCreatorId }
  match st.profile_path with
  | some p => .profiled factory p
  | none => .base factory

/-- The commit policy mode passed to StreamProcessor (arroyo IMMEDIATE). -/
inductive CommitMode where
  | immediate
  deriving DecidableEq, Repr

/-- The runnable consumer handle: the KafkaConsumer configuration and commit
retry policy, the subscribed raw topic, the strategy factory and the commit
mode (consumer_builder.py lines 211-216). -/
structure StreamProcessorDesc where
  consumerConfiguration : ConsumerConfiguration
  commitRetryPolicy : RetryPolicy
  subscribedTopic : String
  strategyFactory : StrategyFactoryDesc
  commitMode : CommitMode

/-- ConsumerBuilder.__build_consumer (consumer_builder.py lines 173-216). -/
def buildConsumer (env : BuildEnv) (st : ConsumerBuilderState)
    (strategyFactory : StrategyFactoryDesc)
    (slice_id : Option Nat := none) : StreamProcessorDesc :=
  { consumerConfiguration := buildConsumerConfiguration env st slice_id
    commitRetryPolicy := st.commit_retry_policy
    subscribedTopic := st.raw_topic
    strategyFactory := strategyFactory
    commitMode := .immediate }

/-- ConsumerBuilder.build_base_consumer (consumer_builder.py lines 274-282):
its slice id argument, defaulting to absent, is the one passed to both the
strategy factory and the consumer configuration; the constructor slice id
plays no part here beyond the already-resolved topics stored in the state. -/
def build_base_consumer (env : BuildEnv) (st : ConsumerBuilderState)
    (slice_id : Option Nat := none) : StreamProcessorDesc :=
  buildConsumer env st (buildStreamingStrategyFactory st slice_id) slice_id

/-- A concrete environment in which every slice is valid, the runtime store
is empty and the broker base configurations are empty. -/
def exEnv : BuildEnv :=
  { isValidSlice := fun _ _ => true
    runtimeConfig := fun _ => none
    defaultKafkaConfig := fun _ _ _ => []
    producerBaseConfig := fun _ _ _ => [] }

/-- A concrete environment that rejects every slice. -/
def exEnvInvalid : BuildEnv :=
  { exEnv with isValidSlice := fun _ _ => false }

/-- A concrete environment whose runtime store sets the global statistics
collection frequency to 500 ms. -/
def exEnvStats : BuildEnv :=
  { exEnv with runtimeConfig := fun k =>
      if k = "stats_collection_freq_ms" then some 500 else none }

/-- A concrete storage whose default topic is the logical topic events, with
physical names events (unsliced) and events-n (slice n), and no replacement
or commit-log topic specs. -/
def exStorage : WritableStorage :=
  { storageSetKey := "events"
    streamLoader :=
      { defaultTopicSpec :=
          { logicalTopicName := "events"
            physicalTopicName := fun s =>
              match s with
              | none => "events"
              | some n => "events-" ++ toString n }
        replacementTopicSpec := none
        commitLogTopicSpec := none
        processorId := 7
        preFilterId := none
        deadLetterQueuePolicyCreatorId := none }
    tableWriterId := 3 }

/-- Concrete Kafka parameters with no topic overrides. -/
def exKafkaParams : KafkaParameters :=
  { raw_topic := none
    replacements_topic := none
    bootstrap_servers := none
    group_id := "ingest-group"
    commit_log_topic := none
    auto_offset_reset := "earliest"
    strict_offset_reset := none
    queued_max_messages_kbytes := 10000
    queued_min_messages := 1000 }

/-- Concrete Kafka parameters with all three topic overrides supplied. -/
def exKafkaParamsOverride : KafkaParameters :=
  { exKafkaParams with
      raw_topic := some "raw-override"
      replacements_topic := some "rep-override"
      commit_log_topic := some "commits-override" }

/-- Concrete processing parameters: single-process execution. -/
def exProcessingParams : ProcessingParameters :=
  { processes := none, input_block_size := none, output_block_size := none }

/-- Helper: a successful construction yields exactly the state described by
initState. -/
theorem consumerBuilderInit_ok_eq {env : BuildEnv} {storage : WritableStorage}
    {kp : KafkaParameters} {pp : ProcessingParameters} {mbs mbt mId : Nat}
    {slice : Option Nat} {sc : Option Unit} {crp : Option RetryPolicy}
    {vs : Bool} {ppath : Option String} {st : ConsumerBuilderState}
    (h : (consumerBuilderInit env storage kp pp mbs mbt mId slice sc crp vs ppath).2
          = .ok st) :
    st = initState env storage kp pp mbs mbt mId slice sc crp vs ppath := by
  unfold consumerBuilderInit validate_passed_slice at h
  by_cases hv : env.isValidSlice storage.storageSetKey slice
  · simp [hv] at h
    exact h.symm
  · simp [hv] at h

/-- C1: For every combination of override-present/absent across the raw,
replacement, and commit-log topic parameters, a successful construction
resolves each topic independently: the operator override when present,
otherwise the physical name of the dataset-declared topic spec under the
given slice id, otherwise absent (possible only for the replacement and
commit-log topics, the raw default topic spec always being present). -/
theorem topic_resolution_override_else_derive_else_absent
    (env : BuildEnv) (storage : WritableStorage) (kp : KafkaParameters)
    (pp : ProcessingParameters) (mbs mbt mId : Nat) (slice : Option Nat)
    (sc : Option Unit) (crp : Option RetryPolicy) (vs : Bool)
    (ppath : Option String) (st : ConsumerBuilderState)
    (h : (consumerBuilderInit env storage kp pp mbs mbt mId slice sc crp vs ppath).2
          = .ok st) :
    (∀ t, kp.raw_topic = some t → st.raw_topic = t) ∧
    (kp.raw_topic = none →
      st.raw_topic = storage.streamLoader.defaultTopicSpec.physicalTopicName slice) ∧
    (∀ t, kp.replacements_topic = some t → st.replacements_topic = some t) ∧
    (∀ spec, kp.replacements_topic = none →
      storage.streamLoader.replacementTopicSpec = some spec →
      st.replacements_topic = some (spec.physicalTopicName slice)) ∧
    (kp.replacements_topic = none →
      storage.streamLoader.replacementTopicSpec = none →
      st.replacements_topic = none) ∧
    (∀ t, kp.commit_log_topic = some t → st.commit_log_topic = some t) ∧
    (∀ spec, kp.commit_log_topic = none →
      storage.streamLoader.commitLogTopicSpec = some spec →
      st.commit_log_topic = some (spec.physicalTopicName slice)) ∧
    (kp.commit_log_topic = none →
      storage.streamLoader.commitLogTopicSpec = none →
      st.commit_log_topic = none) := by
  have hst := consumerBuilderInit_ok_eq h
  subst hst
  refine ⟨?_, ?_, ?_, ?_, ?_, ?_, ?_, ?_⟩ <;> intros <;>
    simp_all [initState, resolveRawTopic, resolveReplacementsTopic,
      resolveCommitLogTopic]

/-- Witness for C1: with no overrides, no declared replacement or commit-log
specs, and no slice, the raw topic is the unsliced physical name of the
default topic spec. -/
theorem topic_resolution_witness :
    (initState exEnv exStorage exKafkaParams exProcessingParams 1000 2000 0 none
      none none false none).raw_topic
      = exStorage.streamLoader.defaultTopicSpec.physicalTopicName none :=
  (topic_resolution_override_else_derive_else_absent exEnv exStorage exKafkaParams
    exProcessingParams 1000 2000 0 none none none false none
    (initState exEnv exStorage exKafkaParams exProcessingParams 1000 2000 0 none
      none none false none) rfl).2.1 rfl

/-- C2 counterexample: on a KafkaException whose argument tuple is empty — a
malformed broker-exception shape — the default retry predicate does not
return false: indexing the empty tuple raises IndexError, so the claim that
the predicate returns false for every malformed exception shape is false. -/
theorem default_retry_predicate_counterexample :
    defaultRetryPredicate (CommitException.kafkaException []) ≠ .ok false ∧
    defaultRetryPredicate (CommitException.kafkaException [])
      = .error PyFault.indexError := by
  simp [defaultRetryPredicate]

/-- C2 (amended): with no caller-supplied policy the builder installs the
default BasicRetryPolicy with 3 attempts and 1-unit backoff whose predicate
returns true exactly for KafkaExceptions whose first argument carries one of
the codes request-timed-out, not-coordinator or wait-for-coordinator, returns
false for every non-broker exception and for KafkaExceptions whose first
argument carries any other code, and itself fails (IndexError or
AttributeError) rather than returning false on a KafkaException with no
arguments or with a first argument lacking a code; a caller-supplied policy
is stored unchanged. -/
theorem default_commit_retry_policy
    (env : BuildEnv) (storage : WritableStorage) (kp : KafkaParameters)
    (pp : ProcessingParameters) (mbs mbt mId : Nat) (slice : Option Nat)
    (sc : Option Unit) (crp : Option RetryPolicy) (vs : Bool)
    (ppath : Option String) :
    (crp = none →
      (initState env storage kp pp mbs mbt mId slice sc crp vs ppath).commit_retry_policy
        = .basic 3 1 defaultRetryPredicate) ∧
    (∀ p, crp = some p →
      (initState env storage kp pp mbs mbt mId slice sc crp vs ppath).commit_retry_policy
        = p) ∧
    (∀ c args, (c = KafkaErrorCode.requestTimedOut ∨ c = KafkaErrorCode.notCoordinator ∨
        c = KafkaErrorCode.waitCoord) →
      defaultRetryPredicate (.kafkaException (.kafkaError c :: args)) = .ok true) ∧
    (∀ c args, ¬(c = KafkaErrorCode.requestTimedOut ∨ c = KafkaErrorCode.notCoordinator ∨
        c = KafkaErrorCode.waitCoord) →
      defaultRetryPredicate (.kafkaException (.kafkaError c :: args)) = .ok false) ∧
    (defaultRetryPredicate .otherException = .ok false) ∧
    (∀ args, defaultRetryPredicate (.kafkaException (.nonErrorValue :: args))
      = .error PyFault.attributeError) ∧
    (defaultRetryPredicate (.kafkaException []) = .error PyFault.indexError) := by
  refine ⟨?_, ?_, ?_, ?_, rfl, fun _ => rfl, rfl⟩
  · intro hc
    simp [initState, hc]
  · intro p hc
    simp [initState, hc]
  · intro c args hc
    rcases hc with h | h | h <;> subst h <;> rfl
  · intro c args hc
    cases c <;> simp_all [defaultRetryPredicate]

/-- Witness for C2 (amended): with no caller-supplied policy the stored
policy is the default one, its predicate accepts a request-timed-out broker
error, rejects another code, and raises on an argument-less KafkaException. -/
theorem default_commit_retry_policy_witness :
    (initState exEnv exStorage exKafkaParams exProcessingParams 1000 2000 0 none
      none none false none).commit_retry_policy
      = .basic 3 1 defaultRetryPredicate ∧
    defaultRetryPredicate
      (.kafkaException [.kafkaError KafkaErrorCode.requestTimedOut]) = .ok true ∧
    defaultRetryPredicate
      (.kafkaException [.kafkaError (KafkaErrorCode.otherCode 1)]) = .ok false ∧
    defaultRetryPredicate (.kafkaException []) = .error PyFault.indexError :=
  ⟨(default_commit_retry_policy exEnv exStorage exKafkaParams exProcessingParams
      1000 2000 0 none none none false none).1 rfl,
   (default_commit_retry_policy exEnv exStorage exKafkaParams exProcessingParams
      1000 2000 0 none none none false none).2.2.1
      KafkaErrorCode.requestTimedOut [] (Or.inl rfl),
   (default_commit_retry_policy exEnv exStorage exKafkaParams exProcessingParams
      1000 2000 0 none none none false none).2.2.2.1
      (KafkaErrorCode.otherCode 1) [] (by simp),
   (default_commit_retry_policy exEnv exStorage exKafkaParams exProcessingParams
      1000 2000 0 none none none false none).2.2.2.2.2.2⟩

/-- C3: in the assembled strategy factory a commit-log configuration is bound
if and only if a commit-log topic resolved — and then it carries exactly the
builder producer, that topic, and the group id — and the replacement-emission
producer is bound if and only if the replacement topic is bound, which is
exactly the resolved replacement topic: never a producer without its topic
nor a topic without its producer binding. -/
theorem commit_log_and_replacements_bound_iff_resolved
    (st : ConsumerBuilderState) (slice : Option Nat) :
    ((buildStreamingStrategyFactory st slice).inner.collector.commitLogConfig.isSome
      ↔ st.commit_log_topic.isSome) ∧
    (∀ c, (buildStreamingStrategyFactory st slice).inner.collector.commitLogConfig
        = some c →
      st.commit_log_topic = some c.topic ∧ c.producer = st.producer ∧
        c.groupId = st.group_id) ∧
    ((buildStreamingStrategyFactory st slice).inner.collector.replacementsProducer.isSome
      ↔ (buildStreamingStrategyFactory st slice).inner.collector.replacementsTopic.isSome) ∧
    ((buildStreamingStrategyFactory st slice).inner.collector.replacementsTopic
      = st.replacements_topic) := by
  refine ⟨?_, ?_, ?_, ?_⟩ <;>
    cases hp : st.profile_path <;> cases hc : st.commit_log_topic <;>
      simp_all [buildStreamingStrategyFactory, StrategyFactoryDesc.inner]

/-- Witness for C3: with all three overrides supplied, the commit-log config
is bound and carries the override topic, the builder producer and the group
id. -/
theorem commit_log_and_replacements_bound_witness :
    (initState exEnv exStorage exKafkaParamsOverride exProcessingParams 1000 2000 0
        none none none false none).commit_log_topic
      = some (CommitLogConfig.mk
          (Producer.mk producerOverrideParams) "commits-override" "ingest-group").topic ∧
    (CommitLogConfig.mk (Producer.mk producerOverrideParams) "commits-override"
        "ingest-group").producer
      = (initState exEnv exStorage exKafkaParamsOverride exProcessingParams 1000 2000 0
          none none none false none).producer ∧
    (CommitLogConfig.mk (Producer.mk producerOverrideParams) "commits-override"
        "ingest-group").groupId
      = (initState exEnv exStorage exKafkaParamsOverride exProcessingParams 1000 2000 0
          none none none false none).group_id :=
  (commit_log_and_replacements_bound_iff_resolved
    (initState exEnv exStorage exKafkaParamsOverride exProcessingParams 1000 2000 0
      none none none false none) none).2.1
    (CommitLogConfig.mk (Producer.mk producerOverrideParams) "commits-override"
      "ingest-group") rfl

/-- C4: when the slice id is invalid for the storage set of the storage,
construction produces the ConfigurationError and an empty effect trace: no
topic was resolved and no broker client was constructed, so no
partially-initialized handle is produced. -/
theorem invalid_slice_raises_before_any_effect
    (env : BuildEnv) (storage : WritableStorage) (kp : KafkaParameters)
    (pp : ProcessingParameters) (mbs mbt mId : Nat) (slice : Option Nat)
    (sc : Option Unit) (crp : Option RetryPolicy) (vs : Bool)
    (ppath : Option String)
    (h : env.isValidSlice storage.storageSetKey slice = false) :
    consumerBuilderInit env storage kp pp mbs mbt mId slice sc crp vs ppath
      = ([], .error (.invalidSliceForStorageSet storage.storageSetKey slice)) := by
  simp [consumerBuilderInit, validate_passed_slice, h]

/-- Witness for C4: in the environment rejecting every slice, construction
with slice 2 yields the error and the empty trace. -/
theorem invalid_slice_raises_witness :
    consumerBuilderInit exEnvInvalid exStorage exKafkaParams exProcessingParams
        1000 2000 0 (some 2) none none false none
      = ([], .error (.invalidSliceForStorageSet "events" (some 2))) :=
  invalid_slice_raises_before_any_effect exEnvInvalid exStorage exKafkaParams
    exProcessingParams 1000 2000 0 (some 2) none none false none rfl

/-- C5: for every set of build-time inputs — in particular whatever the
caller-supplied base producer configuration holds for these keys — the
producer broker configuration stored by the builder maps partitioner to
consistent and message.max.bytes to 50000000. -/
theorem producer_config_forces_partitioner_and_max_bytes
    (env : BuildEnv) (storage : WritableStorage) (kp : KafkaParameters)
    (pp : ProcessingParameters) (mbs mbt mId : Nat) (slice : Option Nat)
    (sc : Option Unit) (crp : Option RetryPolicy) (vs : Bool)
    (ppath : Option String) :
    lookupConfig
        (initState env storage kp pp mbs mbt mId slice sc crp vs
          ppath).producer_broker_config "partitioner"
      = some (.str "consistent") ∧
    lookupConfig
        (initState env storage kp pp mbs mbt mId slice sc crp vs
          ppath).producer_broker_config "message.max.bytes"
      = some (.int 50000000) := by
  simp [initState, build_kafka_producer_configuration, producerOverrideParams,
    lookupConfig]

/-- C6: the strategy factory built from the constructor state has its maximum
batch wall-clock bound equal to the millisecond input divided by 1000 and its
maximum item count equal to the batch-size input unchanged. -/
theorem batching_thresholds
    (env : BuildEnv) (storage : WritableStorage) (kp : KafkaParameters)
    (pp : ProcessingParameters) (mbs mbt mId : Nat) (slice : Option Nat)
    (sc : Option Unit) (crp : Option RetryPolicy) (vs : Bool)
    (ppath : Option String) (slice2 : Option Nat) :
    (buildStreamingStrategyFactory
        (initState env storage kp pp mbs mbt mId slice sc crp vs ppath)
        slice2).inner.maxBatchTime = (mbt : ℚ) / 1000 ∧
    (buildStreamingStrategyFactory
        (initState env storage kp pp mbs mbt mId slice sc crp vs ppath)
        slice2).inner.maxBatchSize = mbs := by
  cases ppath <;>
    simp [initState, buildStreamingStrategyFactory, StrategyFactoryDesc.inner]

/-- Helper: the base consumer configuration always carries the slice id that
was passed to the build call, whether or not statistics entries are added. -/
theorem buildConsumerConfiguration_base_sliceId (env : BuildEnv)
    (st : ConsumerBuilderState) (slice : Option Nat) :
    (buildConsumerConfiguration env st slice).base.sliceId = slice := by
  unfold buildConsumerConfiguration
  by_cases h : 0 < statsCollectionFrequencyMs env st.group_id <;> simp [h]

/-- C7: the consumer configuration gains the statistics-interval entry and
the statistics callback hook if and only if the statistics collection
frequency — the runtime setting keyed by the group id, falling back to the
global setting, defaulting to 0 — is strictly positive; otherwise neither
key is added. -/
theorem stats_keys_iff_positive_frequency (env : BuildEnv)
    (st : ConsumerBuilderState) (slice : Option Nat) :
    (statsCollectionFrequencyMs env st.group_id
      = get_config env ("stats_collection_freq_ms_" ++ st.group_id)
          (get_config env "stats_collection_freq_ms" 0)) ∧
    ((lookupConfig (buildConsumerConfiguration env st slice).extra
        "statistics.interval.ms").isSome
      ↔ 0 < statsCollectionFrequencyMs env st.group_id) ∧
    ((lookupConfig (buildConsumerConfiguration env st slice).extra
        "stats_cb").isSome
      ↔ 0 < statsCollectionFrequencyMs env st.group_id) ∧
    (0 < statsCollectionFrequencyMs env st.group_id →
      (buildConsumerConfiguration env st slice).extra
        = [("statistics.interval.ms", .int (statsCollectionFrequencyMs env st.group_id)),
           ("stats_cb", .callbackRef st.stats_callback)]) ∧
    (¬ 0 < statsCollectionFrequencyMs env st.group_id →
      (buildConsumerConfiguration env st slice).extra = []) := by
  refine ⟨rfl, ?_, ?_, ?_, ?_⟩ <;>
    by_cases h : 0 < statsCollectionFrequencyMs env st.group_id <;>
      simp [buildConsumerConfiguration, lookupConfig, h]

/-- Witness for C7: with a global statistics frequency of 500 ms in the
runtime store, the built consumer configuration carries exactly the two
statistics entries. -/
theorem stats_keys_witness :
    (buildConsumerConfiguration exEnvStats
        (initState exEnvStats exStorage exKafkaParams exProcessingParams 1000 2000 0
          none none none false none) none).extra
      = [("statistics.interval.ms",
          .int (statsCollectionFrequencyMs exEnvStats
            (initState exEnvStats exStorage exKafkaParams exProcessingParams 1000 2000 0
              none none none false none).group_id)),
         ("stats_cb",
          .callbackRef
            (initState exEnvStats exStorage exKafkaParams exProcessingParams 1000 2000 0
              none none none false none).stats_callback)] :=
  (stats_keys_iff_positive_frequency exEnvStats
    (initState exEnvStats exStorage exKafkaParams exProcessingParams 1000 2000 0
      none none none false none) none).2.2.2.1 (by decide)

/-- C8: the per-message transform of the assembled pipeline is process_message
partially applied with exactly the four build-time-fixed values: the stream
loader processor, the consumer group id, the logical default topic name and
the schema-validation flag; the flag defaults to off when not supplied. -/
theorem message_transform_binding (env : BuildEnv) (storage : WritableStorage)
    (kp : KafkaParameters) (pp : ProcessingParameters) (mbs mbt mId : Nat)
    (slice : Option Nat) (sc : Option Unit) (crp : Option RetryPolicy)
    (vs : Bool) (ppath : Option String) (slice2 : Option Nat) :
    (buildStreamingStrategyFactory
        (initState env storage kp pp mbs mbt mId slice sc crp vs ppath)
        slice2).inner.processMessage
      = BoundMessageTransform.mk storage.streamLoader.processorId kp.group_id
          storage.streamLoader.defaultTopicSpec.logicalTopicName vs ∧
    (initState env storage kp pp mbs mbt mId slice).validate_schema = false := by
  cases ppath <;>
    simp [initState, buildStreamingStrategyFactory, StrategyFactoryDesc.inner]

/-- C9: the slice id used for topic resolution is the one supplied at
construction, while the slice id bound into the consumer client configuration
and the batch collector is the separate build_base_consumer argument, which
defaults to absent; the two need not agree: with construction slice 2 and a
build call without a slice, the subscribed raw topic is the slice-2 physical
name while the consumer configuration and the collector carry no slice. -/
theorem slice_ids_independent :
    (∀ (env : BuildEnv) (st : ConsumerBuilderState) (s2 : Option Nat),
      (build_base_consumer env st s2).consumerConfiguration.base.sliceId = s2 ∧
      (build_base_consumer env st s2).strategyFactory.inner.collector.sliceId = s2 ∧
      (build_base_consumer env st s2).subscribedTopic = st.raw_topic ∧
      build_base_consumer env st = build_base_consumer env st none) ∧
    ((initState exEnv exStorage exKafkaParams exProcessingParams 1000 2000 0 (some 2)
        none none false none).raw_topic = "events-2" ∧
     (build_base_consumer exEnv
        (initState exEnv exStorage exKafkaParams exProcessingParams 1000 2000 0 (some 2)
          none none false none)).consumerConfiguration.base.sliceId = none ∧
     (build_base_consumer exEnv
        (initState exEnv exStorage exKafkaParams exProcessingParams 1000 2000 0 (some 2)
          none none false none)).strategyFactory.inner.collector.sliceId = none ∧
     exStorage.streamLoader.defaultTopicSpec.physicalTopicName none ≠ "events-2") := by
  constructor
  · intro env st s2
    refine ⟨buildConsumerConfiguration_base_sliceId env st s2, ?_, rfl, rfl⟩
    cases hp : st.profile_path <;>
      simp [build_base_consumer, buildConsumer, buildStreamingStrategyFactory,
        StrategyFactoryDesc.inner, hp]
  · exact ⟨by decide, by decide, by decide, by decide⟩

/-- Witness for C9: a build call with slice 5 on a state constructed under
slice 2 binds slice 5 into the consumer configuration. -/
theorem slice_ids_independent_witness :
    (build_base_consumer exEnv
        (initState exEnv exStorage exKafkaParams exProcessingParams 1000 2000 0 (some 2)
          none none false none) (some 5)).consumerConfiguration.base.sliceId
      = some 5 :=
  (slice_ids_independent.1 exEnv
    (initState exEnv exStorage exKafkaParams exProcessingParams 1000 2000 0 (some 2)
      none none false none) (some 5)).1

/-- C10: construction always allocates the producer handle from the producer
broker configuration — the trace of every successful construction contains
the producer-construction event, with no condition on the optional topics —
and each of the commit-log binding and the replacement-emission binding, when
present, holds that same single handle. -/
theorem producer_always_allocated_and_shared :
    (∀ (env : BuildEnv) (storage : WritableStorage) (kp : KafkaParameters)
        (pp : ProcessingParameters) (mbs mbt mId : Nat) (slice : Option Nat)
        (sc : Option Unit) (crp : Option RetryPolicy) (vs : Bool)
        (ppath : Option String),
      env.isValidSlice storage.storageSetKey slice = true →
      InitEvent.producerConstructed ∈
        (consumerBuilderInit env storage kp pp mbs mbt mId slice sc crp vs ppath).1 ∧
      (initState env storage kp pp mbs mbt mId slice sc crp vs ppath).producer
        = Producer.mk
            (initState env storage kp pp mbs mbt mId slice sc crp vs
              ppath).producer_broker_config) ∧
    (∀ (st : ConsumerBuilderState) (s2 : Option Nat) (c : CommitLogConfig),
      (buildStreamingStrategyFactory st s2).inner.collector.commitLogConfig = some c →
      c.producer = st.producer) ∧
    (∀ (st : ConsumerBuilderState) (s2 : Option Nat) (p : Producer),
      (buildStreamingStrategyFactory st s2).inner.collector.replacementsProducer
        = some p →
      p = st.producer) := by
  refine ⟨?_, ?_, ?_⟩
  · intro env storage kp pp mbs mbt mId slice sc crp vs ppath h
    exact ⟨by simp [consumerBuilderInit, validate_passed_slice, h, successEvents], rfl⟩
  · intro st s2 c h
    cases hp : st.profile_path <;> cases hc : st.commit_log_topic <;>
      simp_all [buildStreamingStrategyFactory, StrategyFactoryDesc.inner] <;>
      (subst h; rfl)
  · intro st s2 p h
    cases hp : st.profile_path <;> cases hr : st.replacements_topic <;>
      simp_all [buildStreamingStrategyFactory, StrategyFactoryDesc.inner]

/-- Witness for C10: with no optional topic resolved the producer is still
allocated and recorded in the trace; with all overrides supplied, the bound
commit-log producer and replacement producer are the builder producer. -/
theorem producer_always_allocated_witness :
    (InitEvent.producerConstructed ∈
        (consumerBuilderInit exEnv exStorage exKafkaParams exProcessingParams
          1000 2000 0 none none none false none).1 ∧
      (initState exEnv exStorage exKafkaParams exProcessingParams 1000 2000 0 none
          none none false none).producer
        = Producer.mk
            (initState exEnv exStorage exKafkaParams exProcessingParams 1000 2000 0
              none none none false none).producer_broker_config) ∧
    (CommitLogConfig.mk (Producer.mk producerOverrideParams) "commits-override"
        "ingest-group").producer
      = (initState exEnv exStorage exKafkaParamsOverride exProcessingParams 1000 2000 0
          none none none false none).producer ∧
    Producer.mk producerOverrideParams
      = (initState exEnv exStorage exKafkaParamsOverride exProcessingParams 1000 2000 0
          none none none false none).producer :=
  ⟨producer_always_allocated_and_shared.1 exEnv exStorage exKafkaParams
      exProcessingParams 1000 2000 0 none none none false none rfl,
   producer_always_allocated_and_shared.2.1
      (initState exEnv exStorage exKafkaParamsOverride exProcessingParams 1000 2000 0
        none none none false none) none
      (CommitLogConfig.mk (Producer.mk producerOverrideParams) "commits-override"
        "ingest-group") rfl,
   producer_always_allocated_and_shared.2.2
      (initState exEnv exStorage exKafkaParamsOverride exProcessingParams 1000 2000 0
        none none none false none) none (Producer.mk producerOverrideParams) rfl⟩

end ConsumerBuilderSpec
